import Mathlib

/-!
Shallow embedding of the budget-tracker backend (`src/server.js`).

The server is an Express application over a SQLite store.  We model the
persisted store as explicit lists of rows (one list per table) together with
the AUTOINCREMENT counters of the three surrogate-keyed tables.  Each route
handler becomes a Lean function from the store state and the request inputs to
a new state and an HTTP response.  The store itself is an external
collaborator: each SQL statement the handler issues may fail, which we model
by an `Option String` parameter per statement (`none` = the statement
succeeded, `some m` = the statement failed and the driver reported message
`m`).  The wall clock (`new Date().toISOString()`) is likewise external and is
passed in as a string parameter.  JSON response bodies are modelled by an
explicit JSON value type so that the exact shape the handler serializes is
part of the model.
-/

namespace BudgetTracker

/-- A JSON value, as serialized by `res.json(...)` in the handlers. -/
inductive J where
  | null
  | str (s : String)
  | num (n : Int)
  | bool (b : Bool)
  | arr (elems : List J)
  | obj (fields : List (String × J))

/-- The keys of a JSON object (empty for non-objects). -/
def J.fieldNames : J → List String
  | .obj fields => fields.map Prod.fst
  | _ => []

/-- A row of the `users` table (`server.js` lines 26-35). -/
structure User where
  userid : Nat
  username : String
  password : String
  email : String
  timestamp : String
  resetTokenId : Option String
  deriving DecidableEq, Repr

/-- A row of the `transactions` table (`server.js` lines 38-47). -/
structure Txn where
  transactionid : Nat
  isExpense : Bool
  amount : Int
  categoryid : Int
  description : Option String
  timestamp : String
  deriving DecidableEq, Repr

/-- A row of the `user_transaction_mapping` table (`server.js` lines 50-57). -/
structure Mapping where
  userid : Nat
  transactionid : Nat
  deriving DecidableEq, Repr

/-- A row of the `resetTokens` table (`server.js` lines 60-66). -/
structure ResetToken where
  id : Nat
  token : String
  expiresAt : String
  deriving DecidableEq, Repr

/-- The persisted store: the four tables plus the AUTOINCREMENT counters
(SQLite assigns `max`-so-far + 1 and never reuses a value for an
`AUTOINCREMENT` column; we track the next value to be assigned). -/
structure DB where
  users : List User
  transactions : List Txn
  mappings : List Mapping
  resetTokens : List ResetToken
  nextUserId : Nat
  nextTransactionId : Nat
  nextTokenId : Nat
  deriving DecidableEq, Repr

/-- A freshly provisioned store: all four tables empty, counters at 1. -/
def DB.empty : DB := ⟨[], [], [], [], 1, 1, 1⟩

/-- An HTTP response: status code plus JSON body. -/
structure Response where
  status : Nat
  body : J

def optStr : Option String → J
  | none => .null
  | some s => .str s

/-- How a `users` row is serialized by `SELECT *` routes. -/
def userToJ (u : User) : J :=
  .obj [("userid", .num u.userid), ("username", .str u.username),
        ("password", .str u.password), ("email", .str u.email),
        ("timestamp", .str u.timestamp), ("resetTokenId", optStr u.resetTokenId)]

/-- How a `transactions` row is serialized by `SELECT t.*`. -/
def txnToJ (t : Txn) : J :=
  .obj [("transactionid", .num t.transactionid), ("isExpense", .bool t.isExpense),
        ("amount", .num t.amount), ("categoryid", .num t.categoryid),
        ("description", optStr t.description), ("timestamp", .str t.timestamp)]

/-- How a `resetTokens` row is serialized. -/
def tokenToJ (rt : ResetToken) : J :=
  .obj [("id", .num rt.id), ("token", .str rt.token), ("expiresAt", .str rt.expiresAt)]

/-- The error body `{ error: <message> }` every handler sends on a store
failure (`res.status(500).json({ error: err.message })`). -/
def errBody (m : String) : J := .obj [("error", .str m)]

/-- Handler for `GET /health` (`server.js` lines 70-78): runs `SELECT 1`; on failure the
handler sends `{ status: 'error', message: 'Database connection failed' }`
with status 500, ignoring the driver's message; on success it sends
`{ status: 'healthy', timestamp: ... }`. -/
def health (err : Option String) (now : String) : Response :=
  match err with
  | some _ => ⟨500, .obj [("status", .str "error"),
                          ("message", .str "Database connection failed")]⟩
  | none => ⟨200, .obj [("status", .str "healthy"), ("timestamp", .str now)]⟩

/-- Handler for `GET /api/users` (`server.js` lines 81-89): `SELECT * FROM users`. -/
def getUsers (st : DB) (err : Option String) : Response :=
  match err with
  | some m => ⟨500, errBody m⟩
  | none => ⟨200, .arr (st.users.map userToJ)⟩

/-- Handler for `POST /api/users` (`server.js` lines 91-106): inserts a user with
`timestamp = now` and `resetTokenId` left NULL, then responds with
`{ userid: this.lastID, username, email, timestamp }`. -/
def createUser (st : DB) (username password email now : String)
    (err : Option String) : DB × Response :=
  match err with
  | some m => (st, ⟨500, errBody m⟩)
  | none =>
    let uid := st.nextUserId
    ({ st with users := st.users ++ [⟨uid, username, password, email, now, none⟩],
               nextUserId := uid + 1 },
     ⟨200, .obj [("userid", .num uid), ("username", .str username),
                 ("email", .str email), ("timestamp", .str now)]⟩)

/-- Handler for `GET /api/resettoken` (`server.js` lines 109-118):
`SELECT * FROM resetTokens WHERE token = ?`. -/
def getResetTokens (st : DB) (token : String) (err : Option String) : Response :=
  match err with
  | some m => ⟨500, errBody m⟩
  | none => ⟨200, .arr ((st.resetTokens.filter (fun rt => rt.token == token)).map tokenToJ)⟩

/-- Handler for `POST /api/resettoken` (`server.js` lines 120-133). -/
def createResetToken (st : DB) (token expiresAt : String)
    (err : Option String) : DB × Response :=
  match err with
  | some m => (st, ⟨500, errBody m⟩)
  | none =>
    let id := st.nextTokenId
    ({ st with resetTokens := st.resetTokens ++ [⟨id, token, expiresAt⟩],
               nextTokenId := id + 1 },
     ⟨200, .obj [("id", .num id), ("token", .str token), ("expiresAt", .str expiresAt)]⟩)

/-- Handler for `PUT /api/users` (`server.js` lines 136-149):
`UPDATE users SET resetTokenId = ? WHERE userid = ?`, then responds with the
echoed `{ userid, tokenid }`; the affected-row count is never inspected. -/
def assignResetToken (st : DB) (userid : Nat) (tokenid : String)
    (err : Option String) : DB × Response :=
  match err with
  | some m => (st, ⟨500, errBody m⟩)
  | none =>
    ({ st with users := st.users.map (fun u =>
        if u.userid == userid then { u with resetTokenId := some tokenid } else u) },
     ⟨200, .obj [("userid", .num userid), ("tokenid", .str tokenid)]⟩)

/-- Handler for `PUT /api/password` (`server.js` lines 151-164):
`UPDATE users SET password = ? WHERE userid = ?`, then responds with the
echoed `{ userid, password }`; the affected-row count is never inspected. -/
def updatePassword (st : DB) (userid : Nat) (password : String)
    (err : Option String) : DB × Response :=
  match err with
  | some m => (st, ⟨500, errBody m⟩)
  | none =>
    ({ st with users := st.users.map (fun u =>
        if u.userid == userid then { u with password := password } else u) },
     ⟨200, .obj [("userid", .num userid), ("password", .str password)]⟩)

/-- Handler for `POST /api/transactions` (`server.js` lines 167-202), the composite
create: (1) insert the `transactions` row, capturing `this.lastID`; only if
that succeeded, (2) insert the `(userid, transactionid)` mapping row.  Either
failure responds 500 with the driver's message; no rollback is performed. -/
def createTransaction (st : DB) (userid : Nat) (isExpense : Bool)
    (amount categoryid : Int) (description : Option String) (now : String)
    (err1 err2 : Option String) : DB × Response :=
  match err1 with
  | some m => (st, ⟨500, errBody m⟩)
  | none =>
    let tid := st.nextTransactionId
    let st1 := { st with
      transactions := st.transactions ++ [⟨tid, isExpense, amount, categoryid, description, now⟩],
      nextTransactionId := tid + 1 }
    match err2 with
    | some m => (st1, ⟨500, errBody m⟩)
    | none =>
      ({ st1 with mappings := st1.mappings ++ [⟨userid, tid⟩] },
       ⟨200, .obj [("transactionid", .num tid), ("userid", .num userid),
                   ("isExpense", .bool isExpense), ("amount", .num amount),
                   ("categoryid", .num categoryid), ("description", optStr description),
                   ("timestamp", .str now)]⟩)

/-- The query of `GET /api/transactions/:userId` (`server.js` lines 207-212):
`SELECT t.* FROM transactions t INNER JOIN user_transaction_mapping utm ON
t.transactionid = utm.transactionid WHERE utm.userid = ?` — one output row per
mapping row of `userid` whose `transactionid` matches a transaction row. -/
def listTransactionsForUser (st : DB) (userid : Nat) : List Txn :=
  (st.mappings.filter (fun mp => mp.userid == userid)).filterMap
    (fun mp => st.transactions.find? (fun t => t.transactionid == mp.transactionid))

/-- Handler for `GET /api/transactions/:userId` (`server.js` lines 204-221). -/
def getTransactions (st : DB) (userid : Nat) (err : Option String) : Response :=
  match err with
  | some m => ⟨500, errBody m⟩
  | none => ⟨200, .arr ((listTransactionsForUser st userid).map txnToJ)⟩

/-- Handler for `DELETE /api/transactions/:transactionid` (`server.js` lines 223-255), the
composite delete: (1) `DELETE FROM transactions WHERE transactionid = ?`; if
`this.changes === 0` respond 404 `{ error: 'Transaction not found' }` and do
nothing else; otherwise (2) `DELETE FROM user_transaction_mapping WHERE
transactionid = ?`.  Either statement failure responds 500 with the driver's
message; step 1 is never rolled back. -/
def deleteTransaction (st : DB) (tid : Nat) (err1 err2 : Option String) : DB × Response :=
  match err1 with
  | some m => (st, ⟨500, errBody m⟩)
  | none =>
    let changes := (st.transactions.filter (fun t => t.transactionid == tid)).length
    if changes = 0 then
      (st, ⟨404, errBody "Transaction not found"⟩)
    else
      let st1 := { st with
        transactions := st.transactions.filter (fun t => !(t.transactionid == tid)) }
      match err2 with
      | some m => (st1, ⟨500, errBody m⟩)
      | none =>
        ({ st1 with
           mappings := st1.mappings.filter (fun mp => !(mp.transactionid == tid)) },
         ⟨200, .obj [("message",
            .str ("Transaction " ++ toString tid ++ " deleted successfully"))]⟩)

/-- Primary-key well-formedness of the store, as SQLite guarantees it for the
`transactions` table: `transactionid` values are pairwise distinct (it is the
`INTEGER PRIMARY KEY`) and all lie below the next AUTOINCREMENT value. -/
def WF (st : DB) : Prop :=
  (∀ t ∈ st.transactions, t.transactionid < st.nextTransactionId) ∧
  st.transactions.Pairwise (fun a b => a.transactionid ≠ b.transactionid)

instance (st : DB) : Decidable (WF st) := by unfold WF; infer_instance

/-- One API call against the store, with its injected statement outcomes, for
reasoning about whole execution traces. -/
inductive Op where
  | createUser (username password email now : String) (err : Option String)
  | createResetToken (token expiresAt : String) (err : Option String)
  | assignResetToken (userid : Nat) (tokenid : String) (err : Option String)
  | updatePassword (userid : Nat) (password : String) (err : Option String)
  | createTransaction (userid : Nat) (isExpense : Bool) (amount categoryid : Int)
      (description : Option String) (now : String) (err1 err2 : Option String)
  | deleteTransaction (tid : Nat) (err1 err2 : Option String)

/-- The state after one API call (read-only routes do not change the state). -/
def applyOp (st : DB) : Op → DB
  | .createUser a b c d e => (createUser st a b c d e).1
  | .createResetToken a b e => (createResetToken st a b e).1
  | .assignResetToken a b e => (assignResetToken st a b e).1
  | .updatePassword a b e => (updatePassword st a b e).1
  | .createTransaction a b c d e f g h => (createTransaction st a b c d e f g h).1
  | .deleteTransaction a e1 e2 => (deleteTransaction st a e1 e2).1

/-- The state after a sequence of API calls. -/
def runTrace (st : DB) : List Op → DB
  | [] => st
  | op :: ops => runTrace (applyOp st op) ops

/-! ### Helper lemmas -/

lemma applyOp_next_mono (st : DB) (op : Op) :
    st.nextUserId ≤ (applyOp st op).nextUserId ∧
    st.nextTransactionId ≤ (applyOp st op).nextTransactionId ∧
    st.nextTokenId ≤ (applyOp st op).nextTokenId := by
  cases op with
  | createUser a b c d e =>
    cases e <;> simp [applyOp, createUser]
  | createResetToken a b e =>
    cases e <;> simp [applyOp, createResetToken]
  | assignResetToken a b e =>
    cases e <;> simp [applyOp, assignResetToken]
  | updatePassword a b e =>
    cases e <;> simp [applyOp, updatePassword]
  | createTransaction a b c d e f g h =>
    cases g <;> cases h <;> simp [applyOp, createTransaction]
  | deleteTransaction a e1 e2 =>
    cases e1 with
    | some m => simp [applyOp, deleteTransaction]
    | none =>
      cases e2 <;> simp only [applyOp, deleteTransaction] <;> split <;> simp

lemma runTrace_next_mono (st : DB) (ops : List Op) :
    st.nextUserId ≤ (runTrace st ops).nextUserId ∧
    st.nextTransactionId ≤ (runTrace st ops).nextTransactionId ∧
    st.nextTokenId ≤ (runTrace st ops).nextTokenId := by
  induction ops generalizing st with
  | nil => simp [runTrace]
  | cons op ops ih =>
    have h1 := applyOp_next_mono st op
    have h2 := ih (applyOp st op)
    exact ⟨le_trans h1.1 h2.1, le_trans h1.2.1 h2.2.1, le_trans h1.2.2 h2.2.2⟩

/-- With pairwise-distinct transaction ids, at most one row matches a given
`transactionid`. -/
lemma filter_tid_length_le_one (l : List Txn) (tid : Nat)
    (hp : l.Pairwise (fun a b => a.transactionid ≠ b.transactionid)) :
    (l.filter (fun t => t.transactionid == tid)).length ≤ 1 := by
  induction l with
  | nil => simp
  | cons a l ih =>
    rcases List.pairwise_cons.mp hp with ⟨ha, hl⟩
    by_cases h : a.transactionid = tid
    · have hnil : l.filter (fun t => t.transactionid == tid) = [] := by
        refine List.filter_eq_nil_iff.mpr ?_
        intro b hb
        simp only [beq_iff_eq]
        exact fun hbt => (ha b hb) (h.trans hbt.symm)
      simp [List.filter_cons, h, hnil]
    · simpa [List.filter_cons, h] using ih hl

/-- With pairwise-distinct transaction ids, `find?` on a member's own id
returns exactly that member. -/
lemma find?_self (l : List Txn) (t : Txn) (ht : t ∈ l)
    (hp : l.Pairwise (fun a b => a.transactionid ≠ b.transactionid)) :
    l.find? (fun x => x.transactionid == t.transactionid) = some t := by
  induction l with
  | nil => cases ht
  | cons a l ih =>
    rcases List.pairwise_cons.mp hp with ⟨ha, hl⟩
    rcases List.mem_cons.mp ht with rfl | htl
    · simp [List.find?_cons]
    · have hne : a.transactionid ≠ t.transactionid := ha t htl
      have : (a.transactionid == t.transactionid) = false := by simpa using hne
      simp [List.find?_cons, this, ih htl hl]

/-- A small concrete store used to instantiate hypotheses: one user, one
transaction owned by that user. -/
def sampleSt : DB :=
  ⟨[⟨1, "a", "p", "a@x.com", "T0", none⟩],
   [⟨1, true, 500, 2, some "coffee", "T1"⟩],
   [⟨1, 1⟩], [], 2, 2, 1⟩

/-! ### Claims -/

/-- C1: `CreateTransaction` is a two-step composite: if the transaction insert
(step 1) fails, no row is persisted in either table and a StoreError (500 with
the driver's message) is reported, independently of what step 2 would have
done — step 2 is never attempted; if step 1 succeeds and the mapping insert
(step 2) fails, the transaction row from step 1 remains persisted, the mapping
table is unchanged (an orphan), and the operation reports StoreError without
rolling back step 1. -/
theorem C1_createTransaction_partial_failure (st : DB) (userid : Nat)
    (isExpense : Bool) (amount categoryid : Int) (description : Option String)
    (now m : String) :
    (∀ err2, createTransaction st userid isExpense amount categoryid description now (some m) err2
        = (st, ⟨500, errBody m⟩)) ∧
    createTransaction st userid isExpense amount categoryid description now none (some m)
      = ({ st with
            transactions := st.transactions ++
              [⟨st.nextTransactionId, isExpense, amount, categoryid, description, now⟩],
            nextTransactionId := st.nextTransactionId + 1 },
         ⟨500, errBody m⟩) :=
  ⟨fun _ => rfl, rfl⟩

/-- C2: `DeleteTransaction` is a two-step composite: under the primary-key
invariant at most one row matches the id, so a non-zero affected count means
exactly one row was deleted; if the transaction delete affects zero rows the
operation answers 404 NotFound and performs no further action (the store,
mappings included, is returned unchanged, independently of step 2's would-be
outcome); only when step 1 deleted exactly one row is the mapping delete
executed, and its failure surfaces as StoreError (500) with the transaction
row already gone and the mapping table untouched. -/
theorem C2_deleteTransaction_steps (st : DB) (tid : Nat) (m : String) (hWF : WF st) :
    (st.transactions.filter (fun t => t.transactionid == tid)).length ≤ 1 ∧
    ((st.transactions.filter (fun t => t.transactionid == tid)).length = 0 →
      ∀ err2, deleteTransaction st tid none err2
        = (st, ⟨404, errBody "Transaction not found"⟩)) ∧
    ((st.transactions.filter (fun t => t.transactionid == tid)).length = 1 →
      deleteTransaction st tid none (some m)
        = ({ st with
              transactions := st.transactions.filter (fun t => !(t.transactionid == tid)) },
           ⟨500, errBody m⟩)) := by
  refine ⟨filter_tid_length_le_one _ _ hWF.2, ?_, ?_⟩
  · intro h0 err2
    simp [deleteTransaction, h0]
  · intro h1
    simp [deleteTransaction, h1]

/-- Witness for C2 at a concrete store: deleting an absent id 99 answers 404
and leaves the store unchanged; deleting the present id 1 with a failing
mapping delete removes the transaction row, keeps the mapping row, and
answers 500 with the driver's message. -/
theorem C2_deleteTransaction_steps_witness :
    deleteTransaction sampleSt 99 none (some "boom")
      = (sampleSt, ⟨404, errBody "Transaction not found"⟩) ∧
    deleteTransaction sampleSt 1 none (some "boom")
      = ({ sampleSt with transactions := [] }, ⟨500, errBody "boom"⟩) := by
  constructor
  · exact (C2_deleteTransaction_steps sampleSt 99 "boom" (by decide)).2.1 (by decide) (some "boom")
  · exact (C2_deleteTransaction_steps sampleSt 1 "boom" (by decide)).2.2 (by decide)

/-- C5 counterexample: the response of a successful `POST /api/users` does not
echo the password — its body has no `password` field at all (the handler sends
only `userid`, `username`, `email`, `timestamp`). -/
theorem C5_password_not_echoed :
    "password" ∉ J.fieldNames (createUser DB.empty "a" "p" "a@x.com" "T" none).2.body := by
  decide

/-- C5 (amended): a successful `CreateUser` stores the row with
`timestamp = now` (and a NULL `resetTokenId`), assigns the next surrogate
`userid`, and responds 200 with the generated `userid`, the echoed `username`
and `email`, and the assigned `timestamp` — the password is stored but not
echoed in the response. -/
theorem C5_createUser_success (st : DB) (username password email now : String) :
    (createUser st username password email now none).2
      = ⟨200, .obj [("userid", .num st.nextUserId), ("username", .str username),
                    ("email", .str email), ("timestamp", .str now)]⟩ ∧
    (createUser st username password email now none).1
      = { st with
            users := st.users ++ [⟨st.nextUserId, username, password, email, now, none⟩],
            nextUserId := st.nextUserId + 1 } :=
  ⟨rfl, rfl⟩

/-- C6: `AssignResetTokenToUser` and `UpdatePassword` are unconditional
updates: for every store (including one where the `userid` matches zero rows)
a successful statement yields 200 with the same pair echoed back, and no
outcome of either operation ever has status 404. -/
theorem C6_blind_updates (st : DB) (userid : Nat) (tokenid password : String) :
    (assignResetToken st userid tokenid none).2
      = ⟨200, .obj [("userid", .num userid), ("tokenid", .str tokenid)]⟩ ∧
    (updatePassword st userid password none).2
      = ⟨200, .obj [("userid", .num userid), ("password", .str password)]⟩ ∧
    (∀ err, (assignResetToken st userid tokenid err).2.status ≠ 404) ∧
    (∀ err, (updatePassword st userid password err).2.status ≠ 404) := by
  refine ⟨rfl, rfl, ?_, ?_⟩ <;> rintro (_|_) <;>
    simp [assignResetToken, updatePassword]

/-- C3: for an existing `transactionid`, a fully successful `DeleteTransaction`
answers 200 and removes both the transaction row and every mapping row
referencing that id, so no subsequent `ListTransactionsForUser` (for any user)
includes a transaction with that id. -/
theorem C3_delete_removes (st : DB) (tid : Nat)
    (hex : ∃ t ∈ st.transactions, t.transactionid = tid) :
    (deleteTransaction st tid none none).2.status = 200 ∧
    (∀ t ∈ (deleteTransaction st tid none none).1.transactions, t.transactionid ≠ tid) ∧
    (∀ mp ∈ (deleteTransaction st tid none none).1.mappings, mp.transactionid ≠ tid) ∧
    (∀ u, ∀ t ∈ listTransactionsForUser (deleteTransaction st tid none none).1 u,
        t.transactionid ≠ tid) := by
  have hne : (st.transactions.filter (fun t => t.transactionid == tid)).length ≠ 0 := by
    obtain ⟨t, ht, htid⟩ := hex
    have hmem : t ∈ st.transactions.filter (fun t => t.transactionid == tid) :=
      List.mem_filter.mpr ⟨ht, by simp [htid]⟩
    intro h
    rw [List.length_eq_zero] at h
    simp [h] at hmem
  have hd : deleteTransaction st tid none none
      = ({ st with
            transactions := st.transactions.filter (fun t => !(t.transactionid == tid)),
            mappings := st.mappings.filter (fun mp => !(mp.transactionid == tid)) },
         ⟨200, .obj [("message",
            .str ("Transaction " ++ toString tid ++ " deleted successfully"))]⟩) := by
    simp [deleteTransaction, hne]
  rw [hd]
  refine ⟨rfl, ?_, ?_, ?_⟩
  · intro t ht
    have := (List.mem_filter.mp ht).2
    simpa using this
  · intro mp hmp
    have := (List.mem_filter.mp hmp).2
    simpa using this
  · intro u t ht
    simp only [listTransactionsForUser] at ht
    obtain ⟨mp, _, hfind⟩ := List.mem_filterMap.mp ht
    have hmem := List.mem_of_find?_eq_some hfind
    have := (List.mem_filter.mp hmem).2
    simpa using this

/-- Witness for C3: deleting the existing transaction 1 of the sample store
succeeds and its former owner's listing becomes empty. -/
theorem C3_delete_removes_witness :
    (deleteTransaction sampleSt 1 none none).2.status = 200 ∧
    listTransactionsForUser (deleteTransaction sampleSt 1 none none).1 1 = [] := by
  have h := C3_delete_removes sampleSt 1 ⟨⟨1, true, 500, 2, some "coffee", "T1"⟩, by decide, rfl⟩
  exact ⟨h.1, by decide⟩

/-- C4: read-your-writes — after a fully successful `CreateTransaction` for
`userid`, the created transaction row (carrying the id that was assigned,
namely the store's next AUTOINCREMENT value) is included in
`ListTransactionsForUser userid` on the resulting store. -/
theorem C4_read_your_writes (st : DB) (userid : Nat) (isExpense : Bool)
    (amount categoryid : Int) (description : Option String) (now : String)
    (hWF : WF st) :
    (⟨st.nextTransactionId, isExpense, amount, categoryid, description, now⟩ : Txn) ∈
      listTransactionsForUser
        (createTransaction st userid isExpense amount categoryid description now none none).1
        userid := by
  set t : Txn := ⟨st.nextTransactionId, isExpense, amount, categoryid, description, now⟩ with ht
  have hnone : st.transactions.find?
      (fun x => x.transactionid == st.nextTransactionId) = none := by
    refine List.find?_eq_none.mpr ?_
    intro x hx
    have := hWF.1 x hx
    simp only [beq_iff_eq]
    omega
  have hfind : (st.transactions ++ [t]).find?
      (fun x => x.transactionid == t.transactionid) = some t := by
    rw [List.find?_append]
    rw [ht]
    simp only [hnone, Option.none_or]
    simp [List.find?_cons]
  simp only [createTransaction, listTransactionsForUser]
  refine List.mem_filterMap.mpr ⟨⟨userid, st.nextTransactionId⟩, ?_, ?_⟩
  · exact List.mem_filter.mpr ⟨by simp, by simp⟩
  · exact hfind

/-- Witness for C4: creating a transaction on the empty store makes it appear
in the owner's listing. -/
theorem C4_read_your_writes_witness :
    (⟨1, true, 500, 2, some "coffee", "T"⟩ : Txn) ∈
      listTransactionsForUser
        (createTransaction DB.empty 1 true 500 2 (some "coffee") "T" none none).1 1 :=
  C4_read_your_writes DB.empty 1 true 500 2 (some "coffee") "T" (by decide)

/-- C7: the surrogate keys are monotonically increasing and never reused — a
successful `CreateUser` reports `userid` equal to the store's next counter,
and after any further trace of operations (deletions included) another
successful `CreateUser` reports a strictly greater `userid`; likewise for
`CreateTransaction` (`transactionid`) and `CreateResetToken` (`id`). -/
theorem C7_surrogate_keys_monotone (st : DB) (ops : List Op)
    (u p e n u' p' e' n' tok exp tok' exp' now now' : String)
    (uid uid' : Nat) (b b' : Bool) (am cat am' cat' : Int)
    (d d' : Option String) :
    ((createUser st u p e n none).2.body
        = .obj [("userid", .num st.nextUserId), ("username", .str u),
                ("email", .str e), ("timestamp", .str n)] ∧
      (createUser (runTrace (createUser st u p e n none).1 ops) u' p' e' n' none).2.body
        = .obj [("userid", .num (runTrace (createUser st u p e n none).1 ops).nextUserId),
                ("username", .str u'), ("email", .str e'), ("timestamp", .str n')] ∧
      st.nextUserId < (runTrace (createUser st u p e n none).1 ops).nextUserId) ∧
    ((createTransaction st uid b am cat d now none none).2.body
        = .obj [("transactionid", .num st.nextTransactionId), ("userid", .num uid),
                ("isExpense", .bool b), ("amount", .num am), ("categoryid", .num cat),
                ("description", optStr d), ("timestamp", .str now)] ∧
      (createTransaction (runTrace (createTransaction st uid b am cat d now none none).1 ops)
          uid' b' am' cat' d' now' none none).2.body
        = .obj [("transactionid",
                  .num (runTrace (createTransaction st uid b am cat d now none none).1
                          ops).nextTransactionId),
                ("userid", .num uid'), ("isExpense", .bool b'), ("amount", .num am'),
                ("categoryid", .num cat'), ("description", optStr d'),
                ("timestamp", .str now')] ∧
      st.nextTransactionId
        < (runTrace (createTransaction st uid b am cat d now none none).1
             ops).nextTransactionId) ∧
    ((createResetToken st tok exp none).2.body
        = .obj [("id", .num st.nextTokenId), ("token", .str tok), ("expiresAt", .str exp)] ∧
      (createResetToken (runTrace (createResetToken st tok exp none).1 ops) tok' exp' none).2.body
        = .obj [("id", .num (runTrace (createResetToken st tok exp none).1 ops).nextTokenId),
                ("token", .str tok'), ("expiresAt", .str exp')] ∧
      st.nextTokenId < (runTrace (createResetToken st tok exp none).1 ops).nextTokenId) := by
  refine ⟨⟨rfl, rfl, ?_⟩, ⟨rfl, rfl, ?_⟩, ⟨rfl, rfl, ?_⟩⟩
  · have hm := (runTrace_next_mono (createUser st u p e n none).1 ops).1
    have h1 : (createUser st u p e n none).1.nextUserId = st.nextUserId + 1 := rfl
    omega
  · have hm := (runTrace_next_mono (createTransaction st uid b am cat d now none none).1 ops).2.1
    have h1 : (createTransaction st uid b am cat d now none none).1.nextTransactionId
        = st.nextTransactionId + 1 := rfl
    omega
  · have hm := (runTrace_next_mono (createResetToken st tok exp none).1 ops).2.2
    have h1 : (createResetToken st tok exp none).1.nextTokenId = st.nextTokenId + 1 := rfl
    omega

/-! ### Schema (the `CREATE TABLE` statements, `server.js` lines 24-67) -/

/-- One column declaration as written in the DDL: its name, its declared
type, whether `NOT NULL` is written, and whether it is the
`INTEGER PRIMARY KEY AUTOINCREMENT` column. -/
structure Column where
  name : String
  ctype : String
  notNull : Bool
  primaryKey : Bool
  deriving DecidableEq, Repr

/-- A column cannot hold NULL iff it is declared `NOT NULL` or is the
`INTEGER PRIMARY KEY` (which SQLite forces to be non-null). -/
def nonNullable (c : Column) : Bool := c.notNull || c.primaryKey

/-- Columns of `users` (`server.js` lines 26-35). -/
def usersColumns : List Column :=
  [⟨"userid", "INTEGER", false, true⟩,
   ⟨"username", "TEXT", true, false⟩,
   ⟨"password", "TEXT", true, false⟩,
   ⟨"email", "TEXT", true, false⟩,
   ⟨"timestamp", "TEXT", true, false⟩,
   ⟨"resetTokenId", "TEXT", false, false⟩]

/-- Columns of `transactions` (`server.js` lines 38-47); note `description`
is declared plain `TEXT`, with no `NOT NULL`. -/
def transactionsColumns : List Column :=
  [⟨"transactionid", "INTEGER", false, true⟩,
   ⟨"isExpense", "BOOLEAN", true, false⟩,
   ⟨"amount", "INTEGER", true, false⟩,
   ⟨"categoryid", "INTEGER", true, false⟩,
   ⟨"description", "TEXT", false, false⟩,
   ⟨"timestamp", "TEXT", true, false⟩]

/-- Columns of `user_transaction_mapping` (`server.js` lines 50-57). -/
def mappingColumns : List Column :=
  [⟨"userid", "INTEGER", true, false⟩,
   ⟨"transactionid", "INTEGER", true, false⟩]

/-- Columns of `resetTokens` (`server.js` lines 60-66). -/
def resetTokensColumns : List Column :=
  [⟨"id", "INTEGER", false, true⟩,
   ⟨"token", "TEXT", true, false⟩,
   ⟨"expiresAt", "TEXT", true, false⟩]

/-- The four tables created at startup, in DDL order. -/
def schema : List (String × List Column) :=
  [("users", usersColumns),
   ("transactions", transactionsColumns),
   ("user_transaction_mapping", mappingColumns),
   ("resetTokens", resetTokensColumns)]

/-- C8 counterexample: it is not the case that every column other than
`resetTokenId` is non-nullable — `transactions.description` is declared plain
`TEXT` and admits NULL. -/
theorem C8_description_nullable :
    ¬ (∀ tc ∈ schema, ∀ c ∈ tc.2, c.name ≠ "resetTokenId" → nonNullable c = true) := by
  decide

/-- C8 (amended): the store has exactly the four tables, and the nullable
columns are exactly `users.resetTokenId` and `transactions.description`;
accordingly a transaction row with a NULL `description` can be successfully
stored. -/
theorem C8_schema_nullability :
    schema.map Prod.fst
      = ["users", "transactions", "user_transaction_mapping", "resetTokens"] ∧
    (∀ tc ∈ schema, ∀ c ∈ tc.2,
      (nonNullable c = false ↔
        (tc.1 = "users" ∧ c.name = "resetTokenId") ∨
        (tc.1 = "transactions" ∧ c.name = "description"))) ∧
    (createTransaction DB.empty 1 true 500 2 none "T" none none).1.transactions
      = [⟨1, true, 500, 2, none, "T"⟩] := by
  refine ⟨rfl, by decide, rfl⟩

/-- C9 counterexample: a store failure on `GET /health` is not reported as
`{ error: <verbatim message> }` — the handler sends the fixed body
`{ status: 'error', message: 'Database connection failed' }` instead. -/
theorem C9_health_not_verbatim :
    health (some "boom") "T" ≠ ⟨500, errBody "boom"⟩ := by
  intro h
  have hf := congrArg (fun r => J.fieldNames r.body) h
  simp [health, errBody, J.fieldNames] at hf

/-- C9 (amended): on every route except `GET /health`, a store failure at any
statement produces status 500 with body `{ error: <message> }`, the message
taken verbatim from the store; the only NotFound (a zero-row transaction
delete) produces status 404; `GET /health` produces 500 but with the fixed
body `{ status: 'error', message: 'Database connection failed' }` rather than
the verbatim store message. -/
theorem C9_error_mapping (st : DB)
    (m now username password email token expiresAt tokenid : String)
    (userid tid : Nat) (isExpense : Bool) (amount categoryid : Int)
    (description : Option String) :
    getUsers st (some m) = ⟨500, errBody m⟩ ∧
    (createUser st username password email now (some m)).2 = ⟨500, errBody m⟩ ∧
    getResetTokens st token (some m) = ⟨500, errBody m⟩ ∧
    (createResetToken st token expiresAt (some m)).2 = ⟨500, errBody m⟩ ∧
    (assignResetToken st userid tokenid (some m)).2 = ⟨500, errBody m⟩ ∧
    (updatePassword st userid password (some m)).2 = ⟨500, errBody m⟩ ∧
    (∀ err2, (createTransaction st userid isExpense amount categoryid description now
        (some m) err2).2 = ⟨500, errBody m⟩) ∧
    (createTransaction st userid isExpense amount categoryid description now
        none (some m)).2 = ⟨500, errBody m⟩ ∧
    getTransactions st userid (some m) = ⟨500, errBody m⟩ ∧
    (∀ err2, (deleteTransaction st tid (some m) err2).2 = ⟨500, errBody m⟩) ∧
    ((st.transactions.filter (fun t => t.transactionid == tid)).length ≠ 0 →
      (deleteTransaction st tid none (some m)).2 = ⟨500, errBody m⟩) ∧
    ((st.transactions.filter (fun t => t.transactionid == tid)).length = 0 →
      ∀ err2, (deleteTransaction st tid none err2).2.status = 404) ∧
    (health (some m) now).status = 500 ∧
    (health (some m) now).body
      = .obj [("status", .str "error"), ("message", .str "Database connection failed")] := by
  refine ⟨rfl, rfl, rfl, rfl, rfl, rfl, fun _ => rfl, rfl, rfl, fun _ => rfl, ?_, ?_, rfl, rfl⟩
  · intro h
    simp [deleteTransaction, h]
  · intro h err2
    simp [deleteTransaction, h]

/-- Witness for C9 at a concrete store: a failing mapping delete after a
one-row transaction delete answers 500 with the verbatim message, and a
zero-row transaction delete answers 404. -/
theorem C9_error_mapping_witness :
    (deleteTransaction sampleSt 1 none (some "boom")).2 = ⟨500, errBody "boom"⟩ ∧
    (deleteTransaction sampleSt 99 none none).2.status = 404 := by
  have h := C9_error_mapping sampleSt "boom" "T" "a" "p" "a@x.com" "tok" "exp" "tid"
    1 1 true 500 2 none
  have h' := C9_error_mapping sampleSt "boom" "T" "a" "p" "a@x.com" "tok" "exp" "tid"
    1 99 true 500 2 none
  refine ⟨?_, ?_⟩
  · have htid : (sampleSt.transactions.filter
        (fun t => t.transactionid == 1)).length ≠ 0 := by decide
    exact h.2.2.2.2.2.2.2.2.2.2.1 htid
  · have htid : (sampleSt.transactions.filter
        (fun t => t.transactionid == 99)).length = 0 := by decide
    exact h'.2.2.2.2.2.2.2.2.2.2.2.1 htid none

/-- Counting the join's output: if `find?` on `t`'s own id yields exactly `t`,
then `t` occurs in the join output once per mapping row `(u, t.transactionid)`. -/
lemma count_filterMap_mappings (txns : List Txn) (t : Txn) (u : Nat)
    (hfind : txns.find? (fun x => x.transactionid == t.transactionid) = some t)
    (l : List Mapping) :
    ((l.filter (fun mp => mp.userid == u)).filterMap
        (fun mp => txns.find? (fun x => x.transactionid == mp.transactionid))).count t
      = l.count ⟨u, t.transactionid⟩ := by
  induction l with
  | nil => simp
  | cons mp l ih =>
    by_cases hu : mp.userid = u
    · by_cases htid : mp.transactionid = t.transactionid
      · have hmp : mp = ⟨u, t.transactionid⟩ := by
          cases mp
          simp_all
        have hf : txns.find? (fun x => x.transactionid == mp.transactionid) = some t := by
          rw [htid]; exact hfind
        simp [List.filter_cons, hu, List.filterMap_cons, hf, hfind, List.count_cons, hmp, ih]
      · have hne : mp ≠ (⟨u, t.transactionid⟩ : Mapping) := fun h => htid (by rw [h])
        cases hf : txns.find? (fun x => x.transactionid == mp.transactionid) with
        | none =>
          simp [List.filter_cons, hu, List.filterMap_cons, hf, List.count_cons, hne, ih]
        | some t' =>
          have ht' : t' ≠ t := by
            intro h
            have hp := List.find?_some hf
            rw [h] at hp
            simp only [beq_iff_eq] at hp
            exact htid hp.symm
          simp [List.filter_cons, hu, List.filterMap_cons, hf, List.count_cons, hne, ht', ih]
    · have hne : mp ≠ (⟨u, t.transactionid⟩ : Mapping) := fun h => hu (by rw [h])
      simp [List.filter_cons, hu, List.count_cons, hne, ih]

/-- C10: for every user `u` and transaction row `t`, `ListTransactionsForUser u`
contains one entry for `t` per mapping row `(u, t.transactionid)` — duplicate
mapping rows yield duplicate entries — and a transaction with no mapping row
for `u` (e.g. an orphan of a partial create) never appears in `u`'s listing. -/
theorem C10_list_per_mapping (st : DB) (u : Nat) (t : Txn)
    (hWF : WF st) (ht : t ∈ st.transactions) :
    (listTransactionsForUser st u).count t
      = st.mappings.count ⟨u, t.transactionid⟩ ∧
    (st.mappings.count ⟨u, t.transactionid⟩ = 0 →
      t ∉ listTransactionsForUser st u) := by
  have hfind := find?_self st.transactions t ht hWF.2
  have hmain : (listTransactionsForUser st u).count t
      = st.mappings.count ⟨u, t.transactionid⟩ := by
    simpa [listTransactionsForUser] using
      count_filterMap_mappings st.transactions t u hfind st.mappings
  exact ⟨hmain, fun h0 => List.count_eq_zero.mp (hmain.trans h0)⟩

/-- A store whose mapping table holds the same `(1, 1)` edge twice. -/
def dupSt : DB :=
  ⟨[⟨1, "a", "p", "a@x.com", "T0", none⟩],
   [⟨1, true, 500, 2, some "coffee", "T1"⟩],
   [⟨1, 1⟩, ⟨1, 1⟩], [], 2, 2, 1⟩

/-- Witness for C10: with two identical mapping rows, the owner's listing
contains the transaction twice. -/
theorem C10_list_per_mapping_witness :
    (listTransactionsForUser dupSt 1).count ⟨1, true, 500, 2, some "coffee", "T1"⟩ = 2 := by
  have h := C10_list_per_mapping dupSt 1 ⟨1, true, 500, 2, some "coffee", "T1"⟩
    (by decide) (by decide)
  exact h.1.trans (by decide)

end BudgetTracker
